import Mathlib

/-!
Verification development for the wasm-tools static linker core:
module combination (`combine-modules.cc`), import resolution
(`resolve-imports.cc`), the memory index rebaser (`rebase-index.cc`)
and the memory access checker (`access-checker.cc`), shallowly embedded
from the C++ sources over explicit list-based module states.
-/

namespace WasmTools

/-- `wabt::Result`: Ok or Error. -/
inductive Result where
  | Ok : Result
  | Error : Result
deriving DecidableEq, Repr

/-- `wabt::ExternalKind`: the kind of an imported/exported declaration. -/
inductive ExternalKind where
  | Func : ExternalKind
  | Table : ExternalKind
  | Memory : ExternalKind
  | Global : ExternalKind
  | Tag : ExternalKind
deriving DecidableEq, Repr

/-- `wabt::Var`: a dual-mode reference to a declaration, either by symbolic
name or by dense numeric index. -/
inductive Var where
  | name (s : String) : Var
  | index (i : Nat) : Var
deriving DecidableEq, Repr

/-- `wabt::Import` as the linker components use it: the source module name,
the exported field name, the declaration kind, and the locally bound
symbolic name held by the kind-specific payload (`func.name`, `table.name`,
`memory.name`, `global.name`, `tag.name`). -/
structure Import where
  module_name : String
  field_name : String
  kind : ExternalKind
  name : String
deriving DecidableEq, Repr

/-- Tags of the non-Import `wabt::ModuleFieldType` variants.  `CombineModules`
only ever branches on whether a field's type is `Import`, so the non-Import
payloads are carried opaquely (as a tag plus an identity payload). -/
inductive OtherFieldType where
  | Func | Global | Table | Memory | Tag | Export | ElemSegment | DataSegment
  | Start | Type | Custom
deriving DecidableEq, Repr

/-- One entry of `Module::fields` as `CombineModules` sees it: an Import
field with its `Import` payload, or any other field, carried opaquely. -/
inductive ModuleField where
  | importF (imp : Import) : ModuleField
  | other (t : OtherFieldType) (payload : Nat) : ModuleField
deriving DecidableEq, Repr

/-- The first `while` loop of `CombineModules` (combine-modules.cc:20-30):
pops every field of `module`; an Import field is appended to `result` iff
`import->module_name != libmodule->name` (dropped otherwise), and every
non-Import field is pushed onto `temp_module`.  Returns the pair
(fields appended to result, temp_module), each in original order. -/
def combineModuleLoop (libname : String) : List ModuleField → List ModuleField × List ModuleField
  | [] => ([], [])
  | f :: rest =>
      let (res, temp) := combineModuleLoop libname rest
      match f with
      | ModuleField.importF imp =>
          if imp.module_name ≠ libname then (f :: res, temp) else (res, temp)
      | ModuleField.other _ _ => (res, f :: temp)

/-- The second `while` loop of `CombineModules` (combine-modules.cc:33-43):
pops every field of `libmodule`; an Import field is appended to `result` iff
`import->kind() != ExternalKind::Memory` (dropped otherwise), and every
non-Import field is pushed onto `temp_libmodule`. -/
def combineLibLoop : List ModuleField → List ModuleField × List ModuleField
  | [] => ([], [])
  | f :: rest =>
      let (res, temp) := combineLibLoop rest
      match f with
      | ModuleField.importF imp =>
          if imp.kind ≠ ExternalKind.Memory then (f :: res, temp) else (res, temp)
      | ModuleField.other _ _ => (res, f :: temp)

/-- The state `CombineModules` works on: the module name plus the ordered
field list (the only parts of `wabt::Module` the combiner reads or writes). -/
structure CModule where
  name : String
  fields : List ModuleField
deriving DecidableEq, Repr

/-- The outcome of `CombineModules`: the returned `Result` and the final
states of `module`, `libmodule` and `result` (the C++ version mutates all
three in place). -/
structure CombineOutcome where
  res : Result
  module' : CModule
  libmodule' : CModule
  result : CModule
deriving DecidableEq, Repr

/-- `CombineModules` (combine-modules.cc:15-52).  Both input field lists are
drained; retained imports of `module` (those not sourced from
`libmodule.name`) are appended to `result` first, then retained imports of
`libmodule` (those whose kind is not Memory), then `module`'s non-Import
fields, then `libmodule`'s non-Import fields.  Returns `Result::Ok`. -/
def CombineModules (module libmodule result : CModule) : CombineOutcome :=
  let p1 := combineModuleLoop libmodule.name module.fields
  let p2 := combineLibLoop libmodule.fields
  { res := Result.Ok
    module' := { module with fields := [] }
    libmodule' := { libmodule with fields := [] }
    result := { result with
                fields := result.fields ++ p1.1 ++ p2.1 ++ p1.2 ++ p2.2 } }

/-! ## Expression AST and full module state

The resolver, the rebaser and the access checker traverse expression trees
via `wabt::ExprVisitor`.  `Expr` carries every instruction kind those three
components dispatch on; structured instructions (block/loop/if) carry their
nested bodies, all remaining instruction kinds (which every component treats
as a no-op, via `DelegateNop`) are collapsed into `otherE`.  try/catch
follows the same push/pop pattern as block and is not needed by any claim,
so it is not modelled. -/

inductive Expr where
  | load (memidx : Var) : Expr
  | store (memidx : Var) : Expr
  | memoryCopy (srcmemidx destmemidx : Var) : Expr
  | memoryFill (memidx : Var) : Expr
  | memoryGrow (memidx : Var) : Expr
  | memoryInit (memidx : Var) : Expr
  | memorySize (memidx : Var) : Expr
  | call (var : Var) : Expr
  | refFunc (var : Var) : Expr
  | callIndirect (table : Var) : Expr
  | returnCall (var : Var) : Expr
  | returnCallIndirect (table : Var) : Expr
  | globalGet (var : Var) : Expr
  | globalSet (var : Var) : Expr
  | tableCopy (dst_table src_table : Var) : Expr
  | tableInit (table_index : Var) : Expr
  | tableGet (var : Var) : Expr
  | tableSet (var : Var) : Expr
  | tableGrow (var : Var) : Expr
  | tableSize (var : Var) : Expr
  | tableFill (var : Var) : Expr
  | throwE (var : Var) : Expr
  | block (label : String) (body : List Expr) : Expr
  | loopE (label : String) (body : List Expr) : Expr
  | ifE (label : String) (trueBody falseBody : List Expr) : Expr
  | otherE : Expr
deriving Repr

/-- `wabt::Func` as the linker components use it: its symbolic name and its
body expression list. -/
structure Func where
  name : String
  body : List Expr
deriving Repr

/-- `wabt::Global`: symbolic name and initializer expression list. -/
structure Global where
  name : String
  init_expr : List Expr
deriving Repr

/-- `wabt::Table`: symbolic name (the only part the components read). -/
structure Table where
  name : String
deriving DecidableEq, Repr

/-- `wabt::Memory`: symbolic name (the only part the components read). -/
structure Memory where
  name : String
deriving DecidableEq, Repr

/-- `wabt::Tag`: symbolic name (the only part the components read). -/
structure Tag where
  name : String
deriving DecidableEq, Repr

/-- `wabt::Export`: public name, kind, and a Reference to the exported
declaration. -/
structure Export where
  name : String
  kind : ExternalKind
  var : Var
deriving Repr

/-- `wabt::ElemSegment`: table reference, offset expression, and the
per-element expression lists (the resolver inspects each list's front). -/
structure ElemSegment where
  table_var : Var
  offset : List Expr
  elem_exprs : List (List Expr)
deriving Repr

/-- `wabt::DataSegment`: memory reference and offset expression. -/
structure DataSegment where
  memory_var : Var
  offset : List Expr
deriving Repr

/-- The parts of `wabt::Module` that the resolver, rebaser and checker read
or write: the module name, the combiner's field list, the derived per-kind
declaration lists, the derived import list, start references, and the memory
index space (memories in index order, imports first, with
`num_memory_imports` counting the imported prefix). -/
structure Module where
  name : String
  fields : List ModuleField
  funcs : List Func
  globals : List Global
  tables : List Table
  memories : List Memory
  tags : List Tag
  exports : List Export
  elem_segments : List ElemSegment
  data_segments : List DataSegment
  starts : List Var
  imports : List Import
  num_memory_imports : Nat
deriving Repr

/-- `wabt::kInvalidIndex`: the sentinel a `BindingHash` lookup returns when
a name is unbound (`Index` is a 32-bit unsigned integer, so the sentinel is
2^32 − 1). -/
def kInvalidIndex : Nat := 4294967295

/-- Modelled from the spec (§4.5, §3 invariant 1): `wabt::Module::GetFunc` —
the generic name→index machinery resolves a Reference in the function index
space: an index-form Reference picks the function at that position (none
when out of range), a name-form Reference picks the unique function with
that symbolic name (none when absent). -/
def Module.GetFunc (m : Module) (v : Var) : Option Func :=
  match v with
  | Var.index i => m.funcs[i]?
  | Var.name s => m.funcs.find? (fun f => f.name = s)

/-- Modelled from the spec (§4.5, §3 invariant 1): `wabt::Module::GetGlobal`,
the global index space analogue of `Module.GetFunc`. -/
def Module.GetGlobal (m : Module) (v : Var) : Option Global :=
  match v with
  | Var.index i => m.globals[i]?
  | Var.name s => m.globals.find? (fun g => g.name = s)

/-- Modelled from the spec (§4.5, §3 invariant 1): `wabt::Module::GetTable`,
the table index space analogue of `Module.GetFunc`. -/
def Module.GetTable (m : Module) (v : Var) : Option Table :=
  match v with
  | Var.index i => m.tables[i]?
  | Var.name s => m.tables.find? (fun t => t.name = s)

/-- Modelled from the spec (§4.5, §3 invariant 1): `wabt::Module::GetMemory`,
the memory index space analogue of `Module.GetFunc`. -/
def Module.GetMemory (m : Module) (v : Var) : Option Memory :=
  match v with
  | Var.index i => m.memories[i]?
  | Var.name s => m.memories.find? (fun mem => mem.name = s)

/-- Modelled from the spec (§4.5, §3 invariant 1): `wabt::Module::GetTag`,
the tag index space analogue of `Module.GetFunc`. -/
def Module.GetTag (m : Module) (v : Var) : Option Tag :=
  match v with
  | Var.index i => m.tags[i]?
  | Var.name s => m.tags.find? (fun t => t.name = s)

/-- Modelled from the spec (§4.5, §3): `wabt::Module::GetMemoryIndex` —
`memory_bindings.FindIndex(var)` returns an index-form Reference's numeric
index unchanged (no bounds check), the bound position for a name-form
Reference, and `kInvalidIndex` when the name is unbound. -/
def Module.GetMemoryIndex (m : Module) (v : Var) : Nat :=
  match v with
  | Var.index i => i
  | Var.name s =>
      match m.memories.findIdx? (fun mem => mem.name = s) with
      | some i => i
      | none => kInvalidIndex

/-! ## Import map construction (resolve-imports.cc:415-494) -/

/-- The `std::unordered_map<string, string>` the resolver threads around,
modelled as an association list; only `find`, `at` and `insert` are used,
so iteration order never matters. -/
abbrev ImportMap := List (String × String)

/-- `unordered_map::find` followed by `at`: the value bound to `k`, if any. -/
def mapFind? (import_map : ImportMap) (k : String) : Option String :=
  (import_map.find? (fun p => p.1 = k)).map (fun p => p.2)

/-- `unordered_map::insert({k, v})`: inserts only when `k` is not already
bound (C++ `insert` never overwrites). -/
def mapInsert (import_map : ImportMap) (k v : String) : ImportMap :=
  match import_map.find? (fun p => p.1 = k) with
  | some _ => import_map
  | none => import_map ++ [(k, v)]

/-- Modelled from the spec (§3 ExportBinding table):
`libmodule->export_bindings.FindIndex(field_name)` — the position of the
Export field bound to `field_name`, or `kInvalidIndex` (modelled `none`)
when no export carries that name. -/
def exportBindingsFindIndex (libmodule : Module) (field_name : String) : Option Nat :=
  libmodule.exports.findIdx? (fun e => e.name = field_name)

/-- The second `switch` of `ImportMapConstructor`
(resolve-imports.cc:459-489): the symbolic name of the export's target
declaration, found by the kind-specific lookup; `export_name` keeps its
initial empty-string value when the lookup fails. -/
def exportTargetName (libmodule : Module) (export_ : Export) : String :=
  match export_.kind with
  | ExternalKind.Func =>
      match libmodule.GetFunc export_.var with
      | some func => func.name
      | none => ""
  | ExternalKind.Table =>
      match libmodule.GetTable export_.var with
      | some table => table.name
      | none => ""
  | ExternalKind.Memory =>
      match libmodule.GetMemory export_.var with
      | some memory => memory.name
      | none => ""
  | ExternalKind.Global =>
      match libmodule.GetGlobal export_.var with
      | some global => global.name
      | none => ""
  | ExternalKind.Tag =>
      match libmodule.GetTag export_.var with
      | some tag => tag.name
      | none => ""

/-- The body of `ImportMapConstructor`'s loop (resolve-imports.cc:416-493)
for one Import.  The first `switch` reads the locally bound name
(`Import.name` here, uniformly over the kinds).  When no export is bound to
`field_name`, `FindIndex` yields `kInvalidIndex` and the code indexes
`libmodule->exports` out of bounds: that access is modelled as `none`.
Otherwise the entry `{name, export_name}` is inserted, `export_name` being
the empty string whenever the kind-specific target lookup failed. -/
def importMapStep (libmodule : Module) (import_map : ImportMap) (imp : Import) :
    Option ImportMap :=
  if imp.module_name = libmodule.name then
    match exportBindingsFindIndex libmodule imp.field_name with
    | none => none
    | some export_index =>
        match libmodule.exports[export_index]? with
        | none => none
        | some export_ =>
            some (mapInsert import_map imp.name (exportTargetName libmodule export_))
  else
    some import_map

/-- The loop of `ImportMapConstructor` over `module_->imports`. -/
def importMapLoop (libmodule : Module) (import_map : ImportMap) :
    List Import → Option ImportMap
  | [] => some import_map
  | imp :: rest =>
      match importMapStep libmodule import_map imp with
      | none => none
      | some import_map' => importMapLoop libmodule import_map' rest

/-- `ImportMapConstructor` (resolve-imports.cc:415-494): fills the import
map from every Import of `module_` whose source module is `libmodule`. -/
def ImportMapConstructor (module_ libmodule : Module) (import_map : ImportMap) :
    Option ImportMap :=
  importMapLoop libmodule import_map module_.imports

/-! ## Reference rewriting (resolve-imports.cc:108-167) -/

/-- `ImportResolver::ResolveImportForVar` (resolve-imports.cc:108-122):
given the resolved declaration's symbolic name, a nonempty name always ends
in `set_name` — the Reference becomes name-form carrying the import map's
image of the name (or the name itself when unmapped); an empty name leaves
the Reference untouched. -/
def ResolveImportForVar (import_map : ImportMap) (name : String) (var : Var) : Var :=
  if name ≠ "" then
    match mapFind? import_map name with
    | some target => Var.name target
    | none => Var.name name
  else var

/-- `ImportResolver::ResolveImportForFuncVar` (resolve-imports.cc:124-131):
kind-specific lookup in the function index space; failure returns `Error`
with the Reference untouched. -/
def ResolveImportForFuncVar (m : Module) (import_map : ImportMap) (var : Var) :
    Result × Var :=
  match m.GetFunc var with
  | none => (Result.Error, var)
  | some func => (Result.Ok, ResolveImportForVar import_map func.name var)

/-- `ImportResolver::ResolveImportForGlobalVar` (resolve-imports.cc:133-140). -/
def ResolveImportForGlobalVar (m : Module) (import_map : ImportMap) (var : Var) :
    Result × Var :=
  match m.GetGlobal var with
  | none => (Result.Error, var)
  | some global => (Result.Ok, ResolveImportForVar import_map global.name var)

/-- `ImportResolver::ResolveImportForTableVar` (resolve-imports.cc:142-149). -/
def ResolveImportForTableVar (m : Module) (import_map : ImportMap) (var : Var) :
    Result × Var :=
  match m.GetTable var with
  | none => (Result.Error, var)
  | some table => (Result.Ok, ResolveImportForVar import_map table.name var)

/-- `ImportResolver::ResolveImportForMemoryVar` (resolve-imports.cc:151-158). -/
def ResolveImportForMemoryVar (m : Module) (import_map : ImportMap) (var : Var) :
    Result × Var :=
  match m.GetMemory var with
  | none => (Result.Error, var)
  | some memory => (Result.Ok, ResolveImportForVar import_map memory.name var)

/-- `ImportResolver::ResolveImportForTagVar` (resolve-imports.cc:160-167). -/
def ResolveImportForTagVar (m : Module) (import_map : ImportMap) (var : Var) :
    Result × Var :=
  match m.GetTag var with
  | none => (Result.Error, var)
  | some tag => (Result.Ok, ResolveImportForVar import_map tag.name var)

/-! ## Resolver expression traversal (resolve-imports.cc:169-326) -/

/-- The `ImportResolver`'s per-instruction delegate methods
(resolve-imports.cc:189-326), as one dispatch on the instruction kind.
Two-Reference instructions resolve in source order under `CHECK_RESULT`
(memory.copy: src then dest; table.copy: dst then src), so a failure on the
first leaves the second untouched.  Instruction kinds the resolver does not
override fall through to `DelegateNop`'s `Ok`. -/
def resolverOnExpr (m : Module) (import_map : ImportMap) : Expr → Result × Expr
  | Expr.load v =>
      let (r, v') := ResolveImportForMemoryVar m import_map v
      (r, Expr.load v')
  | Expr.store v =>
      let (r, v') := ResolveImportForMemoryVar m import_map v
      (r, Expr.store v')
  | Expr.memoryCopy s d =>
      match ResolveImportForMemoryVar m import_map s with
      | (Result.Error, s') => (Result.Error, Expr.memoryCopy s' d)
      | (Result.Ok, s') =>
          let (r, d') := ResolveImportForMemoryVar m import_map d
          (r, Expr.memoryCopy s' d')
  | Expr.memoryFill v =>
      let (r, v') := ResolveImportForMemoryVar m import_map v
      (r, Expr.memoryFill v')
  | Expr.memoryGrow v =>
      let (r, v') := ResolveImportForMemoryVar m import_map v
      (r, Expr.memoryGrow v')
  | Expr.memoryInit v =>
      let (r, v') := ResolveImportForMemoryVar m import_map v
      (r, Expr.memoryInit v')
  | Expr.memorySize v =>
      let (r, v') := ResolveImportForMemoryVar m import_map v
      (r, Expr.memorySize v')
  | Expr.call v =>
      let (r, v') := ResolveImportForFuncVar m import_map v
      (r, Expr.call v')
  | Expr.refFunc v =>
      let (r, v') := ResolveImportForFuncVar m import_map v
      (r, Expr.refFunc v')
  | Expr.callIndirect v =>
      let (r, v') := ResolveImportForTableVar m import_map v
      (r, Expr.callIndirect v')
  | Expr.returnCall v =>
      let (r, v') := ResolveImportForFuncVar m import_map v
      (r, Expr.returnCall v')
  | Expr.returnCallIndirect v =>
      let (r, v') := ResolveImportForTableVar m import_map v
      (r, Expr.returnCallIndirect v')
  | Expr.globalGet v =>
      let (r, v') := ResolveImportForGlobalVar m import_map v
      (r, Expr.globalGet v')
  | Expr.globalSet v =>
      let (r, v') := ResolveImportForGlobalVar m import_map v
      (r, Expr.globalSet v')
  | Expr.tableCopy d s =>
      match ResolveImportForTableVar m import_map d with
      | (Result.Error, d') => (Result.Error, Expr.tableCopy d' s)
      | (Result.Ok, d') =>
          let (r, s') := ResolveImportForTableVar m import_map s
          (r, Expr.tableCopy d' s')
  | Expr.tableInit v =>
      let (r, v') := ResolveImportForTableVar m import_map v
      (r, Expr.tableInit v')
  | Expr.tableGet v =>
      let (r, v') := ResolveImportForTableVar m import_map v
      (r, Expr.tableGet v')
  | Expr.tableSet v =>
      let (r, v') := ResolveImportForTableVar m import_map v
      (r, Expr.tableSet v')
  | Expr.tableGrow v =>
      let (r, v') := ResolveImportForTableVar m import_map v
      (r, Expr.tableGrow v')
  | Expr.tableSize v =>
      let (r, v') := ResolveImportForTableVar m import_map v
      (r, Expr.tableSize v')
  | Expr.tableFill v =>
      let (r, v') := ResolveImportForTableVar m import_map v
      (r, Expr.tableFill v')
  | Expr.throwE v =>
      let (r, v') := ResolveImportForTagVar m import_map v
      (r, Expr.throwE v')
  | e => (Result.Ok, e)

mutual

/-- `ExprVisitor` descent for the resolver: structured instructions push
their label (`Begin…`/`End…` are Ok no-ops beyond the bookkeeping, which
has no observable effect and is not modelled) and visit nested bodies under
`CHECK_RESULT`; flat instructions dispatch to `resolverOnExpr`.  On error
the partially rewritten expression is kept (in-place mutation). -/
def resolverVisitExpr (m : Module) (import_map : ImportMap) : Expr → Result × Expr
  | Expr.block label body =>
      let (r, body') := resolverVisitList m import_map body
      (r, Expr.block label body')
  | Expr.loopE label body =>
      let (r, body') := resolverVisitList m import_map body
      (r, Expr.loopE label body')
  | Expr.ifE label trueBody falseBody =>
      match resolverVisitList m import_map trueBody with
      | (Result.Error, trueBody') => (Result.Error, Expr.ifE label trueBody' falseBody)
      | (Result.Ok, trueBody') =>
          let (r, falseBody') := resolverVisitList m import_map falseBody
          (r, Expr.ifE label trueBody' falseBody')
  | e => resolverOnExpr m import_map e

/-- `ExprVisitor` over an expression list, fail-fast: an error stops the
walk, leaving the remaining expressions untouched. -/
def resolverVisitList (m : Module) (import_map : ImportMap) : List Expr → Result × List Expr
  | [] => (Result.Ok, [])
  | e :: rest =>
      match resolverVisitExpr m import_map e with
      | (Result.Error, e') => (Result.Error, e' :: rest)
      | (Result.Ok, e') =>
          let (r, rest') := resolverVisitList m import_map rest
          (r, e' :: rest')

end

/-! ## Resolver module traversal (resolve-imports.cc:328-413, 498-502)

The rewrite mutates only the `Var`s inside expressions, exports, segments
and starts — never a declaration's symbolic name — so every kind-specific
lookup throughout one `VisitModule` run sees the same names as at entry.
The embedding therefore passes the original module `m` as the (read-only)
lookup context while threading the rewritten pieces explicitly. -/

/-- `ImportResolver::VisitFunc` (resolve-imports.cc:328-334): visit the
function body. -/
def resolverVisitFunc (m : Module) (import_map : ImportMap) (func : Func) :
    Result × Func :=
  let (r, body') := resolverVisitList m import_map func.body
  (r, { func with body := body' })

/-- The `VisitModule` loop over `module->funcs` under `CHECK_RESULT`:
an error stops the loop, leaving later functions untouched. -/
def resolverVisitFuncs (m : Module) (import_map : ImportMap) :
    List Func → Result × List Func
  | [] => (Result.Ok, [])
  | func :: rest =>
      match resolverVisitFunc m import_map func with
      | (Result.Error, func') => (Result.Error, func' :: rest)
      | (Result.Ok, func') =>
          let (r, rest') := resolverVisitFuncs m import_map rest
          (r, func' :: rest')

/-- `ImportResolver::VisitGlobal` (resolve-imports.cc:336-339): visit the
initializer expression list. -/
def resolverVisitGlobal (m : Module) (import_map : ImportMap) (global : Global) :
    Result × Global :=
  let (r, init') := resolverVisitList m import_map global.init_expr
  (r, { global with init_expr := init' })

/-- The `VisitModule` loop over `module->globals` under `CHECK_RESULT`. -/
def resolverVisitGlobals (m : Module) (import_map : ImportMap) :
    List Global → Result × List Global
  | [] => (Result.Ok, [])
  | global :: rest =>
      match resolverVisitGlobal m import_map global with
      | (Result.Error, global') => (Result.Error, global' :: rest)
      | (Result.Ok, global') =>
          let (r, rest') := resolverVisitGlobals m import_map rest
          (r, global' :: rest')

/-- `ImportResolver::VisitExport` (resolve-imports.cc:345-368): dispatches
the kind-specific resolution on the export's Reference but, unlike every
other visit method, discards the returned `Result` (no `CHECK_RESULT`) and
always returns `Ok` — a lookup failure here is silently ignored and the
Reference stays as it was. -/
def resolverVisitExport (m : Module) (import_map : ImportMap) (export_ : Export) :
    Export :=
  match export_.kind with
  | ExternalKind.Func =>
      { export_ with var := (ResolveImportForFuncVar m import_map export_.var).2 }
  | ExternalKind.Table =>
      { export_ with var := (ResolveImportForTableVar m import_map export_.var).2 }
  | ExternalKind.Memory =>
      { export_ with var := (ResolveImportForMemoryVar m import_map export_.var).2 }
  | ExternalKind.Global =>
      { export_ with var := (ResolveImportForGlobalVar m import_map export_.var).2 }
  | ExternalKind.Tag =>
      { export_ with var := (ResolveImportForTagVar m import_map export_.var).2 }

/-- The `VisitModule` loop over `module->exports`: every export is visited
(`VisitExport` cannot fail), so this step always succeeds. -/
def resolverVisitExports (m : Module) (import_map : ImportMap)
    (exports : List Export) : Result × List Export :=
  (Result.Ok, exports.map (resolverVisitExport m import_map))

/-- The loop over `segment->elem_exprs` inside `VisitElemSegment`
(resolve-imports.cc:374-379): for each element expression list whose front
is a `ref.func`, resolve its Reference under `CHECK_RESULT`.  (`front()` on
an empty list is undefined in C++; an empty list is treated as
not-a-ref.func here.) -/
def resolverElemExprs (m : Module) (import_map : ImportMap) :
    List (List Expr) → Result × List (List Expr)
  | [] => (Result.Ok, [])
  | es :: rest =>
      match es with
      | Expr.refFunc v :: tail =>
          (match ResolveImportForFuncVar m import_map v with
           | (Result.Error, v') => (Result.Error, (Expr.refFunc v' :: tail) :: rest)
           | (Result.Ok, v') =>
               let (r, rest') := resolverElemExprs m import_map rest
               (r, (Expr.refFunc v' :: tail) :: rest'))
      | _ =>
          let (r, rest') := resolverElemExprs m import_map rest
          (r, es :: rest')

/-- `ImportResolver::VisitElemSegment` (resolve-imports.cc:370-381): table
Reference, then offset expressions, then element expression fronts, each
under `CHECK_RESULT`. -/
def resolverVisitElemSegment (m : Module) (import_map : ImportMap)
    (segment : ElemSegment) : Result × ElemSegment :=
  match ResolveImportForTableVar m import_map segment.table_var with
  | (Result.Error, tv') => (Result.Error, { segment with table_var := tv' })
  | (Result.Ok, tv') =>
      match resolverVisitList m import_map segment.offset with
      | (Result.Error, off') =>
          (Result.Error, { segment with table_var := tv', offset := off' })
      | (Result.Ok, off') =>
          let (r, elems') := resolverElemExprs m import_map segment.elem_exprs
          (r, { segment with table_var := tv', offset := off', elem_exprs := elems' })

/-- The `VisitModule` loop over `module->elem_segments` under
`CHECK_RESULT`. -/
def resolverVisitElemSegments (m : Module) (import_map : ImportMap) :
    List ElemSegment → Result × List ElemSegment
  | [] => (Result.Ok, [])
  | segment :: rest =>
      match resolverVisitElemSegment m import_map segment with
      | (Result.Error, segment') => (Result.Error, segment' :: rest)
      | (Result.Ok, segment') =>
          let (r, rest') := resolverVisitElemSegments m import_map rest
          (r, segment' :: rest')

/-- `ImportResolver::VisitDataSegment` (resolve-imports.cc:383-388): memory
Reference then offset expressions, each under `CHECK_RESULT`. -/
def resolverVisitDataSegment (m : Module) (import_map : ImportMap)
    (segment : DataSegment) : Result × DataSegment :=
  match ResolveImportForMemoryVar m import_map segment.memory_var with
  | (Result.Error, mv') => (Result.Error, { segment with memory_var := mv' })
  | (Result.Ok, mv') =>
      let (r, off') := resolverVisitList m import_map segment.offset
      (r, { segment with memory_var := mv', offset := off' })

/-- The `VisitModule` loop over `module->data_segments` under
`CHECK_RESULT`. -/
def resolverVisitDataSegments (m : Module) (import_map : ImportMap) :
    List DataSegment → Result × List DataSegment
  | [] => (Result.Ok, [])
  | segment :: rest =>
      match resolverVisitDataSegment m import_map segment with
      | (Result.Error, segment') => (Result.Error, segment' :: rest)
      | (Result.Ok, segment') =>
          let (r, rest') := resolverVisitDataSegments m import_map rest
          (r, segment' :: rest')

/-- The `VisitModule` loop over `module->starts`
(resolve-imports.cc:390-393, 409-410): each start Reference is a function
Reference, resolved under `CHECK_RESULT`. -/
def resolverVisitStarts (m : Module) (import_map : ImportMap) :
    List Var → Result × List Var
  | [] => (Result.Ok, [])
  | v :: rest =>
      match ResolveImportForFuncVar m import_map v with
      | (Result.Error, v') => (Result.Error, v' :: rest)
      | (Result.Ok, v') =>
          let (r, rest') := resolverVisitStarts m import_map rest
          (r, v' :: rest')

/-- `ImportResolver::VisitModule` (resolve-imports.cc:395-413): funcs,
globals, tags (`VisitTag` is a no-op returning Ok), exports, element
segments, data segments, starts — each section under `CHECK_RESULT`, so
the first failing section ends the traversal with the later sections
untouched. -/
def ImportResolverVisitModule (import_map : ImportMap) (m : Module) :
    Result × Module :=
  match resolverVisitFuncs m import_map m.funcs with
  | (Result.Error, funcs') => (Result.Error, { m with funcs := funcs' })
  | (Result.Ok, funcs') =>
  match resolverVisitGlobals m import_map m.globals with
  | (Result.Error, globals') =>
      (Result.Error, { m with funcs := funcs', globals := globals' })
  | (Result.Ok, globals') =>
  match resolverVisitExports m import_map m.exports with
  | (Result.Error, exports') =>
      (Result.Error, { m with funcs := funcs', globals := globals', exports := exports' })
  | (Result.Ok, exports') =>
  match resolverVisitElemSegments m import_map m.elem_segments with
  | (Result.Error, elems') =>
      (Result.Error, { m with funcs := funcs', globals := globals',
                              exports := exports', elem_segments := elems' })
  | (Result.Ok, elems') =>
  match resolverVisitDataSegments m import_map m.data_segments with
  | (Result.Error, datas') =>
      (Result.Error, { m with funcs := funcs', globals := globals',
                              exports := exports', elem_segments := elems',
                              data_segments := datas' })
  | (Result.Ok, datas') =>
  let (r, starts') := resolverVisitStarts m import_map m.starts
  (r, { m with funcs := funcs', globals := globals', exports := exports',
               elem_segments := elems', data_segments := datas',
               starts := starts' })

/-- `ResolveImports` (resolve-imports.cc:498-502): build the import map
(whose out-of-bounds export access is modelled as `none`), then run the
rewrite traversal over `module_`. -/
def ResolveImports (module_ libmodule : Module) (import_map : ImportMap) :
    Option (Result × Module × ImportMap) :=
  match ImportMapConstructor module_ libmodule import_map with
  | none => none
  | some import_map' =>
      let (r, m') := ImportResolverVisitModule import_map' module_
      some (r, m', import_map')

/-! ## Access checker (access-checker.cc) -/

/-- `MemoryAccessChecker::CheckMemoryAccess` (access-checker.cc:147-152):
`Error` iff the Reference's resolved memory index is below the read-write
threshold `rw_idx_`.  (An unbound name resolves to `kInvalidIndex`, which
is never below any 32-bit threshold.) -/
def CheckMemoryAccess (m : Module) (rw_idx : Nat) (memidx : Var) : Result :=
  if m.GetMemoryIndex memidx < rw_idx then Result.Error else Result.Ok

/-- The `MemoryAccessChecker` per-instruction delegate methods
(access-checker.cc:74-100): load and memory.size return `Ok` outright;
store, memory.fill, memory.grow and memory.init check their memory
Reference; memory.copy checks only `destmemidx`.  Every other instruction
kind falls through to `DelegateNop`'s `Ok`. -/
def checkerOnExpr (m : Module) (rw_idx : Nat) : Expr → Result
  | Expr.load _ => Result.Ok
  | Expr.memoryCopy _ destmemidx => CheckMemoryAccess m rw_idx destmemidx
  | Expr.memoryFill memidx => CheckMemoryAccess m rw_idx memidx
  | Expr.memoryGrow memidx => CheckMemoryAccess m rw_idx memidx
  | Expr.memoryInit memidx => CheckMemoryAccess m rw_idx memidx
  | Expr.memorySize _ => Result.Ok
  | Expr.store memidx => CheckMemoryAccess m rw_idx memidx
  | _ => Result.Ok

mutual

/-- `ExprVisitor` descent for the checker: structured instructions visit
their nested bodies under `CHECK_RESULT` (their `Begin…`/`End…` delegate
methods are `DelegateNop` Ok); flat instructions dispatch to
`checkerOnExpr`. -/
def checkerVisitExpr (m : Module) (rw_idx : Nat) : Expr → Result
  | Expr.block _ body => checkerVisitList m rw_idx body
  | Expr.loopE _ body => checkerVisitList m rw_idx body
  | Expr.ifE _ trueBody falseBody =>
      match checkerVisitList m rw_idx trueBody with
      | Result.Error => Result.Error
      | Result.Ok => checkerVisitList m rw_idx falseBody
  | e => checkerOnExpr m rw_idx e

/-- `ExprVisitor` over an expression list for the checker, fail-fast. -/
def checkerVisitList (m : Module) (rw_idx : Nat) : List Expr → Result
  | [] => Result.Ok
  | e :: rest =>
      match checkerVisitExpr m rw_idx e with
      | Result.Error => Result.Error
      | Result.Ok => checkerVisitList m rw_idx rest

end

/-- The per-function traversal results that
`MemoryAccessChecker::VisitModule` computes (via `VisitFunc`,
access-checker.cc:102-106) and then discards: `VisitFunc` ignores the
`Result` of `visitor_.VisitFunc(func)`. -/
def checkerFuncResults (m : Module) (rw_idx : Nat) : List Result :=
  m.funcs.map (fun func => checkerVisitList m rw_idx func.body)

/-- The per-global traversal results, likewise discarded by `VisitGlobal`
(access-checker.cc:112-114). -/
def checkerGlobalResults (m : Module) (rw_idx : Nat) : List Result :=
  m.globals.map (fun global => checkerVisitList m rw_idx global.init_expr)

/-- The per-element-segment offset traversal results, likewise discarded
by `VisitElemSegment` (access-checker.cc:120-122). -/
def checkerElemResults (m : Module) (rw_idx : Nat) : List Result :=
  m.elem_segments.map (fun segment => checkerVisitList m rw_idx segment.offset)

/-- The per-data-segment offset traversal results, likewise discarded by
`VisitDataSegment` (access-checker.cc:124-126). -/
def checkerDataResults (m : Module) (rw_idx : Nat) : List Result :=
  m.data_segments.map (fun segment => checkerVisitList m rw_idx segment.offset)

/-- `MemoryAccessChecker::VisitModule` (access-checker.cc:128-145): walks
funcs, exports (`VisitExport` is a no-op), globals, tags (no-op), element
and data segments — but every helper discards its traversal `Result`, and
the member `result_` it finally returns is initialized to `Result::Ok` and
never assigned anywhere in the class, so the returned value is the computed
traversal results notwithstanding, always `Ok`. -/
def MemoryAccessCheckerVisitModule (m : Module) (rw_idx : Nat) : Result :=
  let _discardedFuncs := checkerFuncResults m rw_idx
  let _discardedGlobals := checkerGlobalResults m rw_idx
  let _discardedElems := checkerElemResults m rw_idx
  let _discardedDatas := checkerDataResults m rw_idx
  Result.Ok

/-! ## Memory index rebaser (rebase-index.cc, src/unnamed/part_000) -/

/-- `MemoryIndexRebaser::RebaseMemoryIndex` (part_000:155-160): when the
Reference's resolved memory index is at least the module's count of
imported memories, `set_index(memidx->index() + memidx_base_ - 1)` — with
`Index` 32-bit unsigned arithmetic, so the sum wraps modulo 2^32.
`Var::index()` requires an index-form Reference (it asserts `is_index()`);
a name-form Reference reaching that call is modelled as `none`.  Otherwise
the Reference is left unchanged. -/
def RebaseMemoryIndex (m : Module) (memidx_base : Nat) (memidx : Var) : Option Var :=
  if m.num_memory_imports ≤ m.GetMemoryIndex memidx then
    match memidx with
    | Var.index i => some (Var.index ((i + memidx_base + 4294967295) % 4294967296))
    | Var.name _ => none
  else
    some memidx

/-- The `MemoryIndexRebaser` per-instruction delegate methods
(part_000:74-108): load, store, memory.fill, memory.grow, memory.init and
memory.size rebase their memory Reference; memory.copy rebases `srcmemidx`
then `destmemidx`.  Every other instruction kind is a `DelegateNop`
no-op. -/
def rebaserOnExpr (m : Module) (memidx_base : Nat) : Expr → Option Expr
  | Expr.load v => (RebaseMemoryIndex m memidx_base v).map Expr.load
  | Expr.store v => (RebaseMemoryIndex m memidx_base v).map Expr.store
  | Expr.memoryCopy s d => do
      let s' ← RebaseMemoryIndex m memidx_base s
      let d' ← RebaseMemoryIndex m memidx_base d
      pure (Expr.memoryCopy s' d')
  | Expr.memoryFill v => (RebaseMemoryIndex m memidx_base v).map Expr.memoryFill
  | Expr.memoryGrow v => (RebaseMemoryIndex m memidx_base v).map Expr.memoryGrow
  | Expr.memoryInit v => (RebaseMemoryIndex m memidx_base v).map Expr.memoryInit
  | Expr.memorySize v => (RebaseMemoryIndex m memidx_base v).map Expr.memorySize
  | e => some e

/-! ## Spec-side definition for the field-count claim -/

/-- The spec's notion of the elided imports, following §4.4's output
invariant word for word (a second definition, for comparison with
`CombineModules`): the cross-pair imports, i.e. imports in one input whose
`source_module_name` equals the other input's name. -/
def specCrossPairElidedCount (module libmodule : CModule) : Nat :=
  (module.fields.filter (fun f =>
     match f with
     | ModuleField.importF imp => imp.module_name = libmodule.name
     | ModuleField.other _ _ => false)).length
  + (libmodule.fields.filter (fun f =>
     match f with
     | ModuleField.importF imp => imp.module_name = module.name
     | ModuleField.other _ _ => false)).length

/-! ## Field predicates and concrete example modules -/

/-- The fields the first `CombineModules` loop drops: Import fields whose
`source_module_name` equals the library module's name. -/
def isCrossImportFrom (libname : String) : ModuleField → Bool
  | ModuleField.importF imp => imp.module_name == libname
  | ModuleField.other _ _ => false

/-- The fields the second `CombineModules` loop drops: Import fields of
Memory kind. -/
def isMemoryImport : ModuleField → Bool
  | ModuleField.importF imp => imp.kind == ExternalKind.Memory
  | ModuleField.other _ _ => false

/-- The fields the first `CombineModules` loop appends to `result`: Import
fields whose `source_module_name` differs from the library module's name. -/
def isRetainedModImport (libname : String) : ModuleField → Bool
  | ModuleField.importF imp => !(imp.module_name == libname)
  | ModuleField.other _ _ => false

/-- The fields the second `CombineModules` loop appends to `result`: Import
fields of non-Memory kind. -/
def isRetainedLibImport : ModuleField → Bool
  | ModuleField.importF imp => !(imp.kind == ExternalKind.Memory)
  | ModuleField.other _ _ => false

/-- Non-Import fields (the ones both loops push onto their temp lists). -/
def isNonImportField : ModuleField → Bool
  | ModuleField.importF _ => false
  | ModuleField.other _ _ => true

/-- A module with no declarations at all; concrete modules below extend it. -/
def emptyModule : Module :=
  { name := ""
    fields := []
    funcs := []
    globals := []
    tables := []
    memories := []
    tags := []
    exports := []
    elem_segments := []
    data_segments := []
    starts := []
    imports := []
    num_memory_imports := 0 }

/-- A module whose single function stores to memory index 0; the module has
two memories, none imported.  Under threshold `rw_idx = 1` that store is a
policy violation. -/
def storePolicyModule : Module :=
  { emptyModule with
    name := "M"
    funcs := [{ name := "f", body := [Expr.store (Var.index 0)] }]
    memories := [{ name := "mem0" }, { name := "mem1" }] }

/-- A module with one function named `"f"` (used for index-form Reference
resolution examples). -/
def oneFuncModule : Module :=
  { emptyModule with name := "M", funcs := [{ name := "f", body := [] }] }

/-- A module whose single function carries the empty symbolic name. -/
def unnamedFuncModule : Module :=
  { emptyModule with name := "M", funcs := [{ name := "", body := [] }] }

/-- A library module named `"L"` whose export `"e"` (kind Func) references
a function that does not exist: the kind-specific target lookup fails. -/
def danglingExportLib : Module :=
  { emptyModule with
    name := "L"
    exports := [{ name := "e", kind := ExternalKind.Func, var := Var.name "missing" }] }

/-- A module named `"M"` importing `("L", "e")` as Func, locally bound to
`"f"`. -/
def importerModule : Module :=
  { emptyModule with
    name := "M"
    imports := [{ module_name := "L", field_name := "e",
                  kind := ExternalKind.Func, name := "f" }] }

/-- A library module named `"L"` with no exports at all. -/
def bareLib : Module :=
  { emptyModule with name := "L" }

/-- A module named `"M"` importing `("L", "missing")` as Func, locally
bound to `"g"` — the library has no export of that name. -/
def missingImporterModule : Module :=
  { emptyModule with
    name := "M"
    imports := [{ module_name := "L", field_name := "missing",
                  kind := ExternalKind.Func, name := "g" }] }

/-- A module with a function `"g"`, an export whose Func Reference names a
nonexistent function (its kind-specific lookup fails), and a start
Reference to function index 0 occurring after the exports in traversal
order. -/
def swallowedErrorModule : Module :=
  { emptyModule with
    name := "M"
    funcs := [{ name := "g", body := [] }]
    exports := [{ name := "e", kind := ExternalKind.Func, var := Var.name "missing" }]
    starts := [Var.index 0] }

/-- A module whose single function body calls a nonexistent function: the
function-body traversal fails at that call. -/
def failingCallModule : Module :=
  { emptyModule with
    name := "M"
    funcs := [{ name := "f", body := [Expr.call (Var.name "missing")] }]
    starts := [Var.index 0] }

/-- A module with one imported memory followed by one local memory (the
§8 Scenario 3 shape for the rebaser). -/
def oneImportedOneLocalMemModule : Module :=
  { emptyModule with
    name := "M"
    memories := [{ name := "impmem" }, { name := "localmem" }]
    num_memory_imports := 1 }

/-! ## Helper lemmas about the combiner loops -/

/-- The first combiner loop partitions the field list into the retained
imports and the non-Import fields, in order. -/
theorem combineModuleLoop_eq (libname : String) (fields : List ModuleField) :
    combineModuleLoop libname fields =
      (fields.filter (isRetainedModImport libname), fields.filter isNonImportField) := by
  induction fields with
  | nil => rfl
  | cons f rest ih =>
      cases f with
      | importF imp =>
          by_cases h : imp.module_name = libname
          · simp [combineModuleLoop, ih, isRetainedModImport, isNonImportField, h]
          · simp [combineModuleLoop, ih, isRetainedModImport, isNonImportField, h]
      | other t payload =>
          simp [combineModuleLoop, ih, isRetainedModImport, isNonImportField]

/-- The second combiner loop partitions the field list into the retained
(non-Memory) imports and the non-Import fields, in order. -/
theorem combineLibLoop_eq (fields : List ModuleField) :
    combineLibLoop fields =
      (fields.filter isRetainedLibImport, fields.filter isNonImportField) := by
  induction fields with
  | nil => rfl
  | cons f rest ih =>
      cases f with
      | importF imp =>
          by_cases h : imp.kind = ExternalKind.Memory
          · simp [combineLibLoop, ih, isRetainedLibImport, isNonImportField, h]
          · simp [combineLibLoop, ih, isRetainedLibImport, isNonImportField, h]
      | other t payload =>
          simp [combineLibLoop, ih, isRetainedLibImport, isNonImportField]

/-- `isRetainedModImport`, `isNonImportField` and `isCrossImportFrom`
partition any field list, so their filter lengths sum to the list's. -/
theorem modPartition_length (libname : String) (fields : List ModuleField) :
    (fields.filter (isRetainedModImport libname)).length +
      (fields.filter isNonImportField).length +
      (fields.filter (isCrossImportFrom libname)).length = fields.length := by
  induction fields with
  | nil => rfl
  | cons f rest ih =>
      cases f with
      | importF imp =>
          by_cases h : imp.module_name = libname <;>
            simp [isRetainedModImport, isNonImportField, isCrossImportFrom, h] <;> omega
      | other t payload =>
          simp [isRetainedModImport, isNonImportField, isCrossImportFrom]
          omega

/-- `isRetainedLibImport`, `isNonImportField` and `isMemoryImport`
partition any field list, so their filter lengths sum to the list's. -/
theorem libPartition_length (fields : List ModuleField) :
    (fields.filter isRetainedLibImport).length +
      (fields.filter isNonImportField).length +
      (fields.filter isMemoryImport).length = fields.length := by
  induction fields with
  | nil => rfl
  | cons f rest ih =>
      cases f with
      | importF imp =>
          by_cases h : imp.kind = ExternalKind.Memory <;>
            simp [isRetainedLibImport, isNonImportField, isMemoryImport, h] <;> omega
      | other t payload =>
          simp [isRetainedLibImport, isNonImportField, isMemoryImport]
          omega

/-- The output field list of `CombineModules`, written out as the
concatenation of the two loops' partitions. -/
theorem combineFields_eq (module libmodule result : CModule) :
    (CombineModules module libmodule result).result.fields =
      result.fields ++ (combineModuleLoop libmodule.name module.fields).1 ++
        (combineLibLoop libmodule.fields).1 ++
        (combineModuleLoop libmodule.name module.fields).2 ++
        (combineLibLoop libmodule.fields).2 := rfl

/-! ## Claim C1 -/

/-- C1 counterexample: the claim predicts that a libmodule Import from a
third party (`source_module_name` = "thirdparty" ≠ module's name "A") is
retained; but the import is of Memory kind and `CombineModules` drops it —
the output field list is empty. -/
theorem c1_counterexample :
    (CombineModules ⟨"A", []⟩
        ⟨"B", [ModuleField.importF ⟨"thirdparty", "mem", ExternalKind.Memory, "m"⟩]⟩
        ⟨"out", []⟩).result.fields = [] ∧
    ("thirdparty" : String) ≠ "A" :=
  ⟨rfl, by decide⟩

/-- C1 (amended): `CombineModules` retains an Import field taken from
`libmodule` in the output iff that import's kind is not Memory — retention
does not depend on the import's `source_module_name` (the retained set is
determined by `libmodule.fields` alone, independently of either module's
name) — and the output is the concatenation of the retained imports and
remaining fields of both inputs. -/
theorem c1_amended (module libmodule result : CModule) (imp : Import) :
    (ModuleField.importF imp ∈ (combineLibLoop libmodule.fields).1 ↔
      ModuleField.importF imp ∈ libmodule.fields ∧ imp.kind ≠ ExternalKind.Memory) ∧
    (CombineModules module libmodule result).result.fields =
      result.fields ++ (combineModuleLoop libmodule.name module.fields).1 ++
        (combineLibLoop libmodule.fields).1 ++
        (combineModuleLoop libmodule.name module.fields).2 ++
        (combineLibLoop libmodule.fields).2 := by
  constructor
  · rw [combineLibLoop_eq]
    simp [List.mem_filter, isRetainedLibImport]
  · rfl

/-! ## Claim C5 -/

/-- C5 counterexample: with module A (no fields) and libmodule B holding a
single third-party Memory import, there are no cross-pair imports, so the
claim predicts an output field count of 0 + 1 − 0 = 1; `CombineModules`
drops the Memory import and produces 0 fields. -/
theorem c5_counterexample :
    (CombineModules ⟨"A", []⟩
        ⟨"B", [ModuleField.importF ⟨"thirdparty", "mem", ExternalKind.Memory, "m"⟩]⟩
        ⟨"out", []⟩).result.fields.length ≠
      ([] : List ModuleField).length +
        [ModuleField.importF (⟨"thirdparty", "mem", ExternalKind.Memory, "m"⟩ : Import)].length -
        specCrossPairElidedCount ⟨"A", []⟩
          ⟨"B", [ModuleField.importF ⟨"thirdparty", "mem", ExternalKind.Memory, "m"⟩]⟩ := by
  decide

/-- C5 (amended): the output field count of `CombineModules` equals the sum
of the result's initial count and both inputs' field counts, minus the
number of `module` imports whose source is `libmodule`'s name and minus the
number of `libmodule` imports of Memory kind (stated additively).  No other
field is dropped or duplicated. -/
theorem c5_amended (module libmodule result : CModule) :
    (CombineModules module libmodule result).result.fields.length +
      ((module.fields.filter (isCrossImportFrom libmodule.name)).length +
        (libmodule.fields.filter isMemoryImport).length) =
    result.fields.length + module.fields.length + libmodule.fields.length := by
  have h1 := combineModuleLoop_eq libmodule.name module.fields
  have h2 := combineLibLoop_eq libmodule.fields
  have p1 := modPartition_length libmodule.name module.fields
  have p2 := libPartition_length libmodule.fields
  simp only [CombineModules, h1, h2, List.length_append]
  omega

/-! ## Claim C9 -/

/-- C9: `CombineModules` always returns Ok, drains both inputs' field
lists completely, and every input field is either relocated into the output
or is one of the two dropped import categories (module imports sourced from
libmodule's name; libmodule imports of Memory kind). -/
theorem c9_combine_consumes (module libmodule result : CModule) :
    (CombineModules module libmodule result).res = Result.Ok ∧
    (CombineModules module libmodule result).module'.fields = [] ∧
    (CombineModules module libmodule result).libmodule'.fields = [] ∧
    (∀ f, f ∈ module.fields →
      f ∈ (CombineModules module libmodule result).result.fields ∨
        isCrossImportFrom libmodule.name f = true) ∧
    (∀ f, f ∈ libmodule.fields →
      f ∈ (CombineModules module libmodule result).result.fields ∨
        isMemoryImport f = true) := by
  refine ⟨rfl, rfl, rfl, ?_, ?_⟩
  · intro f hf
    by_cases hd : isCrossImportFrom libmodule.name f = true
    · exact Or.inr hd
    · left
      have hmem : f ∈ module.fields.filter (isRetainedModImport libmodule.name) ∨
          f ∈ module.fields.filter isNonImportField := by
        cases f with
        | importF imp =>
            left
            refine List.mem_filter.2 ⟨hf, ?_⟩
            simp [isRetainedModImport]
            simpa [isCrossImportFrom] using hd
        | other t payload =>
            right
            exact List.mem_filter.2 ⟨hf, rfl⟩
      have hout := combineFields_eq module libmodule result
      rw [hout, combineModuleLoop_eq, combineLibLoop_eq]
      simp only [List.mem_append]
      rcases hmem with h | h
      · exact Or.inl (Or.inl (Or.inl (Or.inr h)))
      · exact Or.inl (Or.inr h)
  · intro f hf
    by_cases hd : isMemoryImport f = true
    · exact Or.inr hd
    · left
      have hmem : f ∈ libmodule.fields.filter isRetainedLibImport ∨
          f ∈ libmodule.fields.filter isNonImportField := by
        cases f with
        | importF imp =>
            left
            refine List.mem_filter.2 ⟨hf, ?_⟩
            simp [isRetainedLibImport]
            simpa [isMemoryImport] using hd
        | other t payload =>
            right
            exact List.mem_filter.2 ⟨hf, rfl⟩
      have hout := combineFields_eq module libmodule result
      rw [hout, combineModuleLoop_eq, combineLibLoop_eq]
      simp only [List.mem_append]
      rcases hmem with h | h
      · exact Or.inl (Or.inl (Or.inr h))
      · exact Or.inr h

/-- C9 witness: at a concrete input whose module has one non-Import field,
`CombineModules` returns Ok and that field lands in the output (it is not a
cross-pair import). -/
theorem c9_witness :
    (CombineModules ⟨"A", [ModuleField.other OtherFieldType.Func 7]⟩ ⟨"B", []⟩
        ⟨"out", []⟩).res = Result.Ok ∧
    (ModuleField.other OtherFieldType.Func 7 ∈
        (CombineModules ⟨"A", [ModuleField.other OtherFieldType.Func 7]⟩ ⟨"B", []⟩
          ⟨"out", []⟩).result.fields ∨
      isCrossImportFrom "B" (ModuleField.other OtherFieldType.Func 7) = true) := by
  refine ⟨(c9_combine_consumes _ _ _).1, ?_⟩
  exact (c9_combine_consumes _ _ _).2.2.2.1 _ (by simp)

/-! ## Claim C3 -/

/-- C3 counterexample: (a) when the library's export exists but its Func
target cannot be found, `ImportMapConstructor` does add an entry — mapping
the import's bound name `"f"` to the empty string — rather than skipping
it; (b) when the library has no export bound to the field name at all, the
loop indexes `exports` out of bounds (modelled `none`) instead of
continuing without failure. -/
theorem c3_counterexample :
    ImportMapConstructor importerModule danglingExportLib [] = some [("f", "")] ∧
    ImportMapConstructor missingImporterModule bareLib [] = none :=
  ⟨rfl, rfl⟩

/-- C3 (amended): during import-map construction, for an Import of module
whose source equals libmodule's name: if libmodule has no export bound to
the import's field_name, the loop performs an out-of-bounds access of
`libmodule->exports` (modelled as failure) rather than skipping; if the
export exists but its target cannot be found by its kind, an entry mapping
the import's bound name to the empty string is inserted and construction
continues with the remaining imports. -/
theorem c3_amended (libmodule : Module) (import_map : ImportMap) (imp : Import)
    (rest : List Import) (hmatch : imp.module_name = libmodule.name) :
    (exportBindingsFindIndex libmodule imp.field_name = none →
      importMapLoop libmodule import_map (imp :: rest) = none) ∧
    (∀ (eidx : Nat) (export_ : Export),
      exportBindingsFindIndex libmodule imp.field_name = some eidx →
      libmodule.exports[eidx]? = some export_ →
      exportTargetName libmodule export_ = "" →
      importMapLoop libmodule import_map (imp :: rest) =
        importMapLoop libmodule (mapInsert import_map imp.name "") rest) := by
  constructor
  · intro hnone
    simp [importMapLoop, importMapStep, hmatch, hnone]
  · intro eidx export_ hfind hget hname
    simp [importMapLoop, importMapStep, hmatch, hfind, hget, hname]

/-- C3 witness: the amended behavior at concrete inputs — the bare library
makes the loop fail, and the dangling export makes it insert `("f", "")`
and continue. -/
theorem c3_witness :
    importMapLoop bareLib []
        [{ module_name := "L", field_name := "missing",
           kind := ExternalKind.Func, name := "g" }] = none ∧
    importMapLoop danglingExportLib []
        [{ module_name := "L", field_name := "e",
           kind := ExternalKind.Func, name := "f" }] =
      importMapLoop danglingExportLib (mapInsert [] "f" "") [] := by
  constructor
  · exact (c3_amended bareLib [] _ [] rfl).1 rfl
  · exact (c3_amended danglingExportLib [] _ [] rfl).2 0
      { name := "e", kind := ExternalKind.Func, var := Var.name "missing" } rfl rfl rfl

/-! ## Claim C4 -/

/-- C4 counterexample: an index-form Reference to function 0 (whose name is
`"f"`) is not left in index form — `ResolveImportForFuncVar` rewrites it to
the name-form Reference `"f"`. -/
theorem c4_counterexample :
    ResolveImportForFuncVar oneFuncModule [] (Var.index 0) = (Result.Ok, Var.name "f") ∧
    Var.name "f" ≠ Var.index 0 :=
  ⟨rfl, by decide⟩

/-- C4 (amended): an index-form Reference whose kind-specific lookup
succeeds is rewritten to name form carrying the resolved declaration's name
(or that name's image under the import map) whenever that name is nonempty;
it is left unchanged only when the resolved declaration's name is empty. -/
theorem c4_amended (m : Module) (import_map : ImportMap) (i : Nat) (func : Func)
    (h : m.GetFunc (Var.index i) = some func) :
    ResolveImportForFuncVar m import_map (Var.index i) =
      (Result.Ok,
        if func.name = "" then Var.index i
        else
          match mapFind? import_map func.name with
          | some target => Var.name target
          | none => Var.name func.name) := by
  by_cases hn : func.name = ""
  · simp [ResolveImportForFuncVar, h, ResolveImportForVar, hn]
  · simp [ResolveImportForFuncVar, h, ResolveImportForVar, hn]

/-- C4 witness: with the import map sending `"f"` to `"libf"`, the
index-form Reference to function 0 becomes the name-form Reference
`"libf"`. -/
theorem c4_witness :
    ResolveImportForFuncVar oneFuncModule [("f", "libf")] (Var.index 0) =
      (Result.Ok, Var.name "libf") := by
  have h := c4_amended oneFuncModule [("f", "libf")] 0 { name := "f", body := [] } rfl
  simpa using h

/-! ## Claim C7 -/

/-- C7 counterexample: in `swallowedErrorModule` the export's Func
Reference names a nonexistent function, so its kind-specific lookup fails;
yet `VisitModule` returns Ok and still rewrites the start Reference that
comes after the exports in traversal order (index 0 resolves to `"g"`,
mapped to `"h"`). -/
theorem c7_counterexample :
    (ImportResolverVisitModule [("g", "h")] swallowedErrorModule).1 = Result.Ok ∧
    (ImportResolverVisitModule [("g", "h")] swallowedErrorModule).2.starts =
      [Var.name "h"] ∧
    swallowedErrorModule.GetFunc (Var.name "missing") = none :=
  ⟨rfl, rfl, rfl⟩

/-- C7 (amended): a kind-specific lookup failure aborts the traversal with
an error and leaves everything after the failure untouched — for function
bodies (and the later sections), and likewise within the start-reference
loop — except that a lookup failure on an Export's Reference is discarded
by `VisitExport`, which always returns Ok, so traversal continues past
it. -/
theorem c7_amended (m : Module) (import_map : ImportMap) :
    (resolverVisitExports m import_map m.exports).1 = Result.Ok ∧
    (∀ funcs', resolverVisitFuncs m import_map m.funcs = (Result.Error, funcs') →
      ImportResolverVisitModule import_map m = (Result.Error, { m with funcs := funcs' })) ∧
    (∀ (func : Func) (rest : List Func) (func' : Func),
      resolverVisitFunc m import_map func = (Result.Error, func') →
      resolverVisitFuncs m import_map (func :: rest) = (Result.Error, func' :: rest)) ∧
    (∀ (v : Var) (rest : List Var) (v' : Var),
      ResolveImportForFuncVar m import_map v = (Result.Error, v') →
      resolverVisitStarts m import_map (v :: rest) = (Result.Error, v' :: rest)) := by
  refine ⟨rfl, ?_, ?_, ?_⟩
  · intro funcs' h
    simp [ImportResolverVisitModule, h]
  · intro func rest func' h
    simp [resolverVisitFuncs, h]
  · intro v rest v' h
    simp [resolverVisitStarts, h]

/-- C7 witness: a function body whose call references a nonexistent
function makes the whole traversal return Error with the module unchanged
(the failing Reference itself is left as it was). -/
theorem c7_witness :
    ImportResolverVisitModule [] failingCallModule = (Result.Error, failingCallModule) := by
  have h : resolverVisitFuncs failingCallModule [] failingCallModule.funcs =
      (Result.Error, failingCallModule.funcs) := rfl
  have h2 := (c7_amended failingCallModule []).2.1 failingCallModule.funcs h
  exact h2

/-! ## Claim C10 -/

/-- C10: when the declaration a Reference resolves to has an empty symbolic
name, `ResolveImportForVar` leaves the Reference completely unchanged (no
import-map image is applied), and the enclosing kind-specific resolution
returns Ok with the same Reference. -/
theorem c10_empty_name_unchanged (m : Module) (import_map : ImportMap) (v : Var)
    (func : Func) (h : m.GetFunc v = some func) (hname : func.name = "") :
    ResolveImportForVar import_map func.name v = v ∧
    ResolveImportForFuncVar m import_map v = (Result.Ok, v) := by
  constructor
  · simp [ResolveImportForVar, hname]
  · simp [ResolveImportForFuncVar, h, ResolveImportForVar, hname]

/-- C10 witness: with a single unnamed function and an import map that even
contains the empty string as a key, the index-form Reference to it is
untouched. -/
theorem c10_witness :
    ResolveImportForFuncVar unnamedFuncModule [("", "x")] (Var.index 0) =
      (Result.Ok, Var.index 0) :=
  (c10_empty_name_unchanged unnamedFuncModule [("", "x")] (Var.index 0)
    { name := "", body := [] } rfl rfl).2

/-! ## Claim C2 -/

/-- C2: the access checker's `VisitModule` returns Ok on every module and
every threshold — `result_` is initialized to Ok and never assigned, and
every visit helper discards its traversal Result — even though on
`storePolicyModule` with threshold 1 the per-function traversal itself does
detect the violating store to memory index 0 (the discarded per-function
result is Error).  The code therefore never reports any violation. -/
theorem c2_checker_always_ok :
    (∀ (m : Module) (rw_idx : Nat), MemoryAccessCheckerVisitModule m rw_idx = Result.Ok) ∧
    checkerFuncResults storePolicyModule 1 = [Result.Error] ∧
    MemoryAccessCheckerVisitModule storePolicyModule 1 = Result.Ok :=
  ⟨fun _ _ => rfl, rfl, rfl⟩

/-! ## Claim C8 -/

/-- C8: the checker's per-instruction dispatch never flags a load or a
memory.size (whatever memory they target), and for memory.copy the outcome
depends only on the destination index — any two source References give the
same result, and the result is Error exactly when the destination's
resolved index is below the threshold. -/
theorem c8_exempt_and_dest_only (m : Module) (rw_idx : Nat) (v s s' d : Var) :
    checkerOnExpr m rw_idx (Expr.load v) = Result.Ok ∧
    checkerOnExpr m rw_idx (Expr.memorySize v) = Result.Ok ∧
    checkerOnExpr m rw_idx (Expr.memoryCopy s d) =
      checkerOnExpr m rw_idx (Expr.memoryCopy s' d) ∧
    (checkerOnExpr m rw_idx (Expr.memoryCopy s d) = Result.Error ↔
      m.GetMemoryIndex d < rw_idx) := by
  refine ⟨rfl, rfl, rfl, ?_⟩
  by_cases h : m.GetMemoryIndex d < rw_idx
  · simp [checkerOnExpr, CheckMemoryAccess, h]
  · simp [checkerOnExpr, CheckMemoryAccess, h]

/-- C8 witness: at the concrete two-memory module and threshold 1, a load
from memory 0 and memory.size on memory 0 pass, and a copy's result ignores
its source: copying from protected memory 0 into memory 1 passes, while any
copy into memory 0 fails. -/
theorem c8_witness :
    checkerOnExpr storePolicyModule 1 (Expr.load (Var.index 0)) = Result.Ok ∧
    checkerOnExpr storePolicyModule 1 (Expr.memorySize (Var.index 0)) = Result.Ok ∧
    checkerOnExpr storePolicyModule 1 (Expr.memoryCopy (Var.index 0) (Var.index 1)) =
      checkerOnExpr storePolicyModule 1 (Expr.memoryCopy (Var.index 1) (Var.index 1)) ∧
    (checkerOnExpr storePolicyModule 1 (Expr.memoryCopy (Var.index 1) (Var.index 0)) =
      Result.Error ↔ storePolicyModule.GetMemoryIndex (Var.index 0) < 1) := by
  refine ⟨(c8_exempt_and_dest_only storePolicyModule 1 (Var.index 0) (Var.index 0)
    (Var.index 1) (Var.index 1)).1, ?_, ?_, ?_⟩
  · exact (c8_exempt_and_dest_only storePolicyModule 1 (Var.index 0) (Var.index 0)
      (Var.index 1) (Var.index 1)).2.1
  · exact (c8_exempt_and_dest_only storePolicyModule 1 (Var.index 0) (Var.index 0)
      (Var.index 1) (Var.index 1)).2.2.1
  · exact (c8_exempt_and_dest_only storePolicyModule 1 (Var.index 0) (Var.index 1)
      (Var.index 1) (Var.index 0)).2.2.2

/-! ## Claim C6 -/

/-- C6: for every memory-referencing instruction the rebaser visits (load,
store, memory.copy on both its indices, memory.fill, memory.grow,
memory.init, memory.size), an index-form Reference with resolved index at
least the module's imported-memory count gains `memidx_base − 1`, and is
unchanged otherwise (under no 32-bit overflow and `memidx_base ≥ 1`). -/
theorem c6_rebase_rule (m : Module) (memidx_base i : Nat)
    (h1 : 1 ≤ memidx_base) (h2 : i + memidx_base ≤ 4294967296) :
    RebaseMemoryIndex m memidx_base (Var.index i) =
      some (Var.index (if m.num_memory_imports ≤ i then i + (memidx_base - 1) else i)) ∧
    (∀ s d : Var, rebaserOnExpr m memidx_base (Expr.memoryCopy s d) =
      (RebaseMemoryIndex m memidx_base s).bind (fun s' =>
        (RebaseMemoryIndex m memidx_base d).bind (fun d' =>
          some (Expr.memoryCopy s' d')))) ∧
    rebaserOnExpr m memidx_base (Expr.load (Var.index i)) =
      some (Expr.load (Var.index (if m.num_memory_imports ≤ i then i + (memidx_base - 1) else i))) ∧
    rebaserOnExpr m memidx_base (Expr.store (Var.index i)) =
      some (Expr.store (Var.index (if m.num_memory_imports ≤ i then i + (memidx_base - 1) else i))) ∧
    rebaserOnExpr m memidx_base (Expr.memoryFill (Var.index i)) =
      some (Expr.memoryFill (Var.index (if m.num_memory_imports ≤ i then i + (memidx_base - 1) else i))) ∧
    rebaserOnExpr m memidx_base (Expr.memoryGrow (Var.index i)) =
      some (Expr.memoryGrow (Var.index (if m.num_memory_imports ≤ i then i + (memidx_base - 1) else i))) ∧
    rebaserOnExpr m memidx_base (Expr.memoryInit (Var.index i)) =
      some (Expr.memoryInit (Var.index (if m.num_memory_imports ≤ i then i + (memidx_base - 1) else i))) ∧
    rebaserOnExpr m memidx_base (Expr.memorySize (Var.index i)) =
      some (Expr.memorySize (Var.index (if m.num_memory_imports ≤ i then i + (memidx_base - 1) else i))) := by
  have harith : (i + memidx_base + 4294967295) % 4294967296 = i + (memidx_base - 1) := by
    omega
  have key : RebaseMemoryIndex m memidx_base (Var.index i) =
      some (Var.index (if m.num_memory_imports ≤ i then i + (memidx_base - 1) else i)) := by
    by_cases him : m.num_memory_imports ≤ i
    · simp [RebaseMemoryIndex, Module.GetMemoryIndex, him, harith]
    · simp [RebaseMemoryIndex, Module.GetMemoryIndex, him]
  refine ⟨key, fun s d => rfl, ?_, ?_, ?_, ?_, ?_, ?_⟩ <;>
    simp [rebaserOnExpr, key]

/-- C6 witness: the §8 Scenario-3 instance — one imported memory,
`memidx_base = 3`: local index 1 becomes 3, imported index 0 is
unchanged (shown via a store and a load instruction). -/
theorem c6_witness :
    RebaseMemoryIndex oneImportedOneLocalMemModule 3 (Var.index 1) =
      some (Var.index 3) ∧
    RebaseMemoryIndex oneImportedOneLocalMemModule 3 (Var.index 0) =
      some (Var.index 0) ∧
    rebaserOnExpr oneImportedOneLocalMemModule 3 (Expr.store (Var.index 1)) =
      some (Expr.store (Var.index 3)) ∧
    rebaserOnExpr oneImportedOneLocalMemModule 3 (Expr.load (Var.index 0)) =
      some (Expr.load (Var.index 0)) := by
  have h1 := (c6_rebase_rule oneImportedOneLocalMemModule 3 1 (by norm_num) (by norm_num)).1
  have h0 := (c6_rebase_rule oneImportedOneLocalMemModule 3 0 (by norm_num) (by norm_num)).1
  have hs := (c6_rebase_rule oneImportedOneLocalMemModule 3 1 (by norm_num)
    (by norm_num)).2.2.2.1
  have hl := (c6_rebase_rule oneImportedOneLocalMemModule 3 0 (by norm_num)
    (by norm_num)).2.2.1
  refine ⟨?_, ?_, ?_, ?_⟩
  · simpa [oneImportedOneLocalMemModule, emptyModule] using h1
  · simpa [oneImportedOneLocalMemModule, emptyModule] using h0
  · simpa [oneImportedOneLocalMemModule, emptyModule] using hs
  · simpa [oneImportedOneLocalMemModule, emptyModule] using hl

end WasmTools
